import Mathlib

/- Verification of scripts/generate_fake_survey.py.

A shallow embedding of the fake employee-engagement survey generator.
Python floats are modelled as rationals (`ℚ`); each call to a random
primitive is modelled as reading one value from an explicit stream, so
every sampler becomes a pure function of its random inputs.  `numpy`
draws `normal(loc, scale)` and `exponential(scale)` are modelled as
`loc + scale * z` and `scale * z` for a raw stream variate `z`.
-/

namespace FakeSurvey

/-- Model of np.rint: round half to even, as numpy does. -/
def np_rint (x : ℚ) : ℤ :=
  let f : ℤ := ⌊x⌋
  let r : ℚ := x - f
  if r < 1/2 then f
  else if 1/2 < r then f + 1
  else if f % 2 = 0 then f else f + 1

/-- Model of np.clip(v, lo, hi) on an integer value: min(max(v, lo), hi)
(numpy clips to the lower bound first, then the upper). -/
def np_clip (v lo hi : ℤ) : ℤ := min (max v lo) hi

/-- Truncation toward zero: the Python int(x) conversion on a float. -/
def py_int (x : ℚ) : ℤ := if 0 ≤ x then ⌊x⌋ else ⌈x⌉

-- ----------------------------
-- Config tables (from the source, verbatim)
-- ----------------------------

def SEED : ℕ := 42
def N_RESPONSES : ℕ := 180

def DEPARTMENTS : List String :=
  ["Engineering", "Sales", "Customer Support", "Operations", "Finance", "HR / People"]

/-- Values of DEPT_WEIGHTS, in dict insertion order (matching DEPARTMENTS). -/
def DEPT_WEIGHT_VALUES : List ℚ := [26/100, 18/100, 20/100, 16/100, 10/100, 10/100]

def LOCATIONS : List String := ["Paris", "Lyon", "Remote"]
def LOCATION_WEIGHTS : List ℚ := [55/100, 20/100, 25/100]

def TENURE_BANDS : List String := ["0-1y", "1-3y", "3-5y", "5y+"]
def TENURE_WEIGHTS : List ℚ := [22/100, 36/100, 24/100, 18/100]

/-- The LIKERT_TEXT table: Likert integer → exported text label. -/
def LIKERT_TEXT (k : ℤ) : String :=
  if k = 1 then "Strongly disagree"
  else if k = 2 then "Disagree"
  else if k = 3 then "Neutral"
  else if k = 4 then "Agree"
  else if k = 5 then "Strongly agree"
  else ""

/-- Decode an exported Likert label back to its integer score. -/
def decode_likert (s : String) : Option ℤ :=
  if s = "Strongly disagree" then some 1
  else if s = "Disagree" then some 2
  else if s = "Neutral" then some 3
  else if s = "Agree" then some 4
  else if s = "Strongly agree" then some 5
  else none

/-- The 12 question codes, in source order. -/
def QUESTION_CODES : List String :=
  ["Q01_Strategy", "Q02_Leadership_Comms", "Q03_Manager_Support", "Q04_Feedback",
   "Q05_Workload", "Q06_Tools", "Q07_Recognition", "Q08_Collaboration",
   "Q09_PsychSafety", "Q10_CareerPath", "Q11_Stay12Months", "Q12_OverallEngagement"]

/-- The BASE_MEAN_BY_Q table (keys outside it are never looked up by the code). -/
def BASE_MEAN_BY_Q (q : String) : ℚ :=
  if q = "Q01_Strategy" then 34/10
  else if q = "Q02_Leadership_Comms" then 31/10
  else if q = "Q03_Manager_Support" then 35/10
  else if q = "Q04_Feedback" then 32/10
  else if q = "Q05_Workload" then 29/10
  else if q = "Q06_Tools" then 38/10
  else if q = "Q07_Recognition" then 31/10
  else if q = "Q08_Collaboration" then 37/10
  else if q = "Q09_PsychSafety" then 36/10
  else if q = "Q10_CareerPath" then 28/10
  else if q = "Q11_Stay12Months" then 34/10
  else if q = "Q12_OverallEngagement" then 33/10
  else 0

/-- Nested lookup into DEPT_ADJ with an empty-dict then 0.0 default, as in
the source expression at line 169. -/
def DEPT_ADJ (dept q : String) : ℚ :=
  if dept = "Engineering" then
    if q = "Q06_Tools" then 3/10
    else if q = "Q02_Leadership_Comms" then -1/10
    else if q = "Q10_CareerPath" then -1/10
    else 0
  else if dept = "Sales" then
    if q = "Q07_Recognition" then 1/10
    else if q = "Q01_Strategy" then 1/10
    else if q = "Q05_Workload" then -1/10
    else 0
  else if dept = "Customer Support" then
    if q = "Q05_Workload" then -4/10
    else if q = "Q07_Recognition" then -2/10
    else if q = "Q06_Tools" then -1/10
    else 0
  else if dept = "Operations" then
    if q = "Q06_Tools" then -2/10
    else if q = "Q02_Leadership_Comms" then -1/10
    else if q = "Q05_Workload" then -2/10
    else 0
  else if dept = "Finance" then
    if q = "Q01_Strategy" then 1/10
    else if q = "Q08_Collaboration" then -1/10
    else 0
  else if dept = "HR / People" then
    if q = "Q09_PsychSafety" then 2/10
    else if q = "Q02_Leadership_Comms" then 1/10
    else if q = "Q05_Workload" then -1/10
    else 0
  else 0

def WORKING_WELL_TEMPLATES : List String :=
  ["Team collaboration is strong and people are helpful.",
   "Good culture and supportive colleagues.",
   "Tools and systems mostly work well for my role.",
   "Manager is approachable and supportive.",
   "Autonomy and trust make it easier to get work done.",
   "Cross-team collaboration has improved recently."]

def IMPROVE_FIRST_TEMPLATES : List String :=
  ["More clarity on priorities and decisions from leadership.",
   "Reduce workload and improve staffing/planning.",
   "Clearer career paths and development opportunities.",
   "More recognition for strong performance.",
   "Improve communication between teams.",
   "Faster decisions and less last-minute changes."]

-- ----------------------------
-- Helpers (from the source)
-- ----------------------------

/-- The likert_from_mean helper: sample np.random.normal(loc=mean, scale=0.85)
(modelled as mean + 0.85 * z for the raw stream variate z),
round with np.rint, clamp to [1, 5] with np.clip, take int. -/
def likert_from_mean (mean z : ℚ) : ℤ :=
  np_clip (np_rint (mean + 85/100 * z)) 1 5

/-- The per-department dept_shift table inside
generate_enps_from_engagement, with its 0.0 lookup default. -/
def enps_dept_shift (dept : String) : ℚ :=
  if dept = "Engineering" then 3/10
  else if dept = "Sales" then 2/10
  else if dept = "Customer Support" then -6/10
  else if dept = "Operations" then -3/10
  else if dept = "Finance" then 0
  else if dept = "HR / People" then 2/10
  else 0

/-- The pre-noise target mean of the eNPS sampler:
`(overall_eng_score - 1) * 2.5 + dept_shift + 4.0`
(the `loc` of the normal draw at line 140 of the source). -/
def enps_target_mean (overall_eng_score : ℚ) (dept : String) : ℚ :=
  (overall_eng_score - 1) * (25/10) + enps_dept_shift dept + 4

/-- The generate_enps_from_engagement helper: normal draw at the target mean
with scale 1.9 (modelled as mean + 1.9 * z), np.rint, clip to [0, 10]. -/
def generate_enps_from_engagement (overall_eng_score : ℚ) (dept : String) (z : ℚ) : ℤ :=
  np_clip (np_rint (enps_target_mean overall_eng_score dept + 19/10 * z)) 0 10

/-- Minute offset of generate_timestamp:
int(np.random.exponential(scale=4.5) * i / 8) where the exponential
draw is modelled as 4.5 * z for the raw stream variate z ≥ 0. -/
def timestamp_offset_minutes (i : ℕ) (z : ℚ) : ℤ :=
  py_int ((45/10) * z * i / 8)

/-- The start instant START_DATE = datetime(2025, 11, 3, 9, 0, 0), as minutes
within its day (the absolute date plays no role in the claims; offsets are
whole minutes, so the minute-resolution display format drops nothing). -/
def START_MINUTES : ℤ := 9 * 60

/-- The generate_timestamp helper, as minutes: start plus truncated offset. -/
def generate_timestamp (i : ℕ) (z : ℚ) : ℤ :=
  START_MINUTES + timestamp_offset_minutes i z

-- ----------------------------
-- Mean composition in `main` (lines 167-179)
-- ----------------------------

/-- The adjustment cascade of the inner loop of main, with the base mean and
department adjustment abstracted: start from base + adj, subtract 0.2
for new hires on the two new-hire-sensitive questions, then add 0.2 for
managers on the two leadership-sensitive questions. -/
def mean_with_adjustments (base adj : ℚ) (tenure manager q : String) : ℚ :=
  let m := base + adj
  let m := if tenure = "0-1y" ∧ (q = "Q01_Strategy" ∨ q = "Q10_CareerPath")
           then m - 2/10 else m
  if manager = "Yes" ∧ (q = "Q01_Strategy" ∨ q = "Q02_Leadership_Comms")
  then m + 2/10 else m

/-- The effective target mean that main feeds to likert_from_mean for a
given respondent profile and question. -/
def effective_mean (dept tenure manager q : String) : ℚ :=
  mean_with_adjustments (BASE_MEAN_BY_Q q) (DEPT_ADJ dept q) tenure manager q

-- ----------------------------
-- Random-choice primitives
-- ----------------------------

/-- The selection step of random.choices in CPython, with k=1:
bisect the cumulative weights at x = random() * total (equivalently,
subtract weights until x falls inside one; the last item absorbs the
remainder, since bisect is called with hi = n - 1). -/
def pick_weighted : List String → List ℚ → ℚ → String
  | [], _, _ => ""
  | [a], _, _ => a
  | a :: _ :: _, [], _ => a
  | a :: b :: l, w :: ws, x =>
      if x < w then a else pick_weighted (b :: l) ws (x - w)

/-- The weighted_choice helper, random.choices(items, weights, k=1)[0].
In CPython, random.choices raises ValueError when the weight list and the
population differ in length, and when the weight total is not positive;
otherwise it selects by cumulative weight at random() * total. -/
def weighted_choice (items : List String) (weights : List ℚ) (u : ℚ) :
    Except String String :=
  if weights.length ≠ items.length then
    .error "The number of weights does not match the population"
  else if weights.sum ≤ 0 then
    .error "Total of weights must be greater than zero"
  else
    .ok (pick_weighted items weights (u * weights.sum))

/-- Model of random.choice: pick the element at a uniform index, the index
draw modelled as the floor of u * len(l) for a uniform variate u ∈ [0, 1). -/
def py_choice (l : List String) (u : ℚ) : String :=
  l.getD (py_int (u * l.length)).toNat ""

-- ----------------------------
-- Comment selector (`main`, lines 199-211)
-- ----------------------------

/-- The two comment fields of one respondent, reading successive draws of
the `random`-module stream `py` starting at index `pc`; `p1` and `p2` are
the gate probabilities (`0.78` and `0.70` in `main`).  Returns
`(Open_WhatsWorking, Open_ImproveFirst, next unread index)`.  The 0.55
workload-override draw happens only for the two high-workload
departments, matching the Python short-circuit conjunction. -/
def gen_comments (p1 p2 : ℚ) (dept : String) (py : ℕ → ℚ) (pc : ℕ) :
    String × String × ℕ :=
  let c1 := if py pc < p1 then py_choice WORKING_WELL_TEMPLATES (py (pc+1)) else ""
  let pc1 := if py pc < p1 then pc + 2 else pc + 1
  if py pc1 < p2 then
    if dept = "Customer Support" ∨ dept = "Operations" then
      if py (pc1+1) < 55/100 then
        (c1, "Reduce workload and improve staffing/planning.", pc1+2)
      else
        (c1, py_choice IMPROVE_FIRST_TEMPLATES (py (pc1+2)), pc1+3)
    else
      (c1, py_choice IMPROVE_FIRST_TEMPLATES (py (pc1+1)), pc1+2)
  else
    (c1, "", pc1+1)

-- ----------------------------
-- Respondent identifiers and row assembly
-- ----------------------------

/-- Python's `str.zfill(w)`: left-pad with `'0'` to width `w`
(no sign handling needed: inputs here are decimal numerals). -/
def zfill (w : ℕ) (s : String) : String :=
  String.mk (List.replicate (w - s.length) '0') ++ s

/-- The respondent identifier: the letter R followed by str(i).zfill(4). -/
def respondent_id (i : ℕ) : String := "R" ++ zfill 4 (Nat.repr i)

/-- The row dictionary of `main` (lines 184-211), as an ordered
association list, Python dicts being insertion-ordered.  Likert answers
are stored as their text labels; the eNPS integer is kept as its decimal
rendering so that all cells share one type. -/
def mk_row (rid time dept location tenure manager : String) (enps : ℤ)
    (answers : String → ℤ) (c1 c2 : String) : List (String × String) :=
  [("RespondentID", rid), ("SubmissionTime", time), ("Department", dept),
   ("Location", location), ("Tenure", tenure), ("Manager", manager),
   ("eNPS_0_10", toString enps)]
  ++ QUESTION_CODES.map (fun q => (q, LIKERT_TEXT (answers q)))
  ++ [("Open_WhatsWorking", c1), ("Open_ImproveFirst", c2)]

/-- The column names every row carries, in order. -/
def ROW_HEADER : List String :=
  ["RespondentID", "SubmissionTime", "Department", "Location", "Tenure",
   "Manager", "eNPS_0_10"]
  ++ QUESTION_CODES ++ ["Open_WhatsWorking", "Open_ImproveFirst"]

-- ----------------------------
-- The generator loop (`main`)
-- ----------------------------

/-- The two shared random streams: `py` models the `random` module
(seeded by `random.seed(SEED)`), `npr` models `np.random` (seeded by
`np.random.seed(SEED)`); each primitive call reads the next value. -/
structure Streams where
  py : ℕ → ℚ
  npr : ℕ → ℚ

/-- One iteration of the loop of main: respondent i, with pc and nc
the numbers of draws already consumed from the two streams.  Draw order
follows the source: four weighted categorical draws, twelve Likert
normals in question order, the eNPS normal, the timestamp exponential,
then the comment gates.  A `ValueError` from `random.choices`
propagates, aborting before the row is assembled. -/
def gen_respondent (deptItems : List String) (deptW : List ℚ) (s : Streams)
    (i pc nc : ℕ) : Except String (List (String × String) × ℕ × ℕ) :=
  match weighted_choice deptItems deptW (s.py pc) with
  | .error e => .error e
  | .ok dept =>
  match weighted_choice LOCATIONS LOCATION_WEIGHTS (s.py (pc+1)) with
  | .error e => .error e
  | .ok location =>
  match weighted_choice TENURE_BANDS TENURE_WEIGHTS (s.py (pc+2)) with
  | .error e => .error e
  | .ok tenure =>
  match weighted_choice ["Yes", "No"] [12/100, 88/100] (s.py (pc+3)) with
  | .error e => .error e
  | .ok manager =>
    let answers : String → ℤ := fun q =>
      likert_from_mean (effective_mean dept tenure manager q)
        (s.npr (nc + QUESTION_CODES.indexOf q))
    let enps := generate_enps_from_engagement
      ((answers "Q12_OverallEngagement" : ℤ) : ℚ) dept (s.npr (nc + 12))
    let ts := generate_timestamp i (s.npr (nc + 13))
    let cc := gen_comments (78/100) (70/100) dept s.py (pc + 4)
    .ok (mk_row (respondent_id i) (toString ts) dept location tenure manager
           enps answers cc.1 cc.2.1, cc.2.2, nc + 14)

/-- The loop of main over respondents i, i+1, and so on (n of them): collects
the rows in generation order; a raised ValueError aborts the whole run. -/
def gen_rows (deptItems : List String) (deptW : List ℚ) (s : Streams) :
    ℕ → ℕ → ℕ → ℕ → Except String (List (List (String × String)))
  | 0, _, _, _ => .ok []
  | n + 1, i, pc, nc =>
    match gen_respondent deptItems deptW s i pc nc with
    | .error e => .error e
    | .ok (row, pc', nc') =>
      match gen_rows deptItems deptW s n (i+1) pc' nc' with
      | .error e => .error e
      | .ok rest => .ok (row :: rest)

/-- The full dataset of `main`: `n` respondents starting at index 1, the
department items and weights taken from `DEPT_WEIGHTS` in insertion
order, both streams starting unread. -/
def generate_dataset (s : Streams) (n : ℕ) :
    Except String (List (List (String × String))) :=
  gen_rows DEPARTMENTS DEPT_WEIGHT_VALUES s n 1 0 0

/-- Modelled from the spec: the timestamp offset as the spec words it,
"rounding ExponentialSample(scale=4.5) * i / 8 to the nearest whole
minute" — to be compared with timestamp_offset_minutes, which embeds
the int(...) truncation of the source. -/
def timestamp_offset_claimed (i : ℕ) (z : ℚ) : ℤ :=
  round ((45/10) * z * i / 8)

-- ----------------------------
-- Helper lemmas
-- ----------------------------

theorem np_clip_bounds (v lo hi : ℤ) (h : lo ≤ hi) :
    lo ≤ np_clip v lo hi ∧ np_clip v lo hi ≤ hi :=
  ⟨le_min (le_max_right v lo) h, min_le_right _ _⟩

theorem decode_LIKERT_TEXT (k : ℤ) (h1 : 1 ≤ k) (h5 : k ≤ 5) :
    decode_likert (LIKERT_TEXT k) = some k := by
  interval_cases k <;> rfl

-- ----------------------------
-- Claims
-- ----------------------------

/-- C1: for every real-valued target mean (and stream variate), the
sampled Likert score decodes from its exported text label back to an
integer in `{1,…,5}`, and the eNPS value is an integer in `{0,…,10}`. -/
theorem likert_and_enps_in_range :
    (∀ mean z : ℚ, 1 ≤ likert_from_mean mean z ∧ likert_from_mean mean z ≤ 5 ∧
      decode_likert (LIKERT_TEXT (likert_from_mean mean z)) =
        some (likert_from_mean mean z)) ∧
    (∀ (sc : ℚ) (dept : String) (z : ℚ),
      0 ≤ generate_enps_from_engagement sc dept z ∧
      generate_enps_from_engagement sc dept z ≤ 10) := by
  constructor
  · intro mean z
    obtain ⟨h1, h5⟩ := np_clip_bounds (np_rint (mean + 85/100 * z)) 1 5 (by norm_num)
    exact ⟨h1, h5, decode_LIKERT_TEXT _ h1 h5⟩
  · intro sc dept z
    exact np_clip_bounds _ 0 10 (by norm_num)

/-- C2: the effective target mean is the base mean plus the department
adjustment, minus 0.2 exactly for new hires on Q01/Q10, plus 0.2 exactly
for managers on Q01/Q02; with base 3.0, department adjustment +0.3 and
neither of the two conditional adjustments, it is exactly 3.3. -/
theorem effective_mean_composition :
    (∀ dept tenure manager q, effective_mean dept tenure manager q =
      BASE_MEAN_BY_Q q + DEPT_ADJ dept q
      + (if tenure = "0-1y" ∧ (q = "Q01_Strategy" ∨ q = "Q10_CareerPath")
         then -(2/10) else 0)
      + (if manager = "Yes" ∧ (q = "Q01_Strategy" ∨ q = "Q02_Leadership_Comms")
         then 2/10 else 0)) ∧
    (∀ q, mean_with_adjustments 3 (3/10) "3-5y" "No" q = 33/10) := by
  constructor
  · intro dept tenure manager q
    unfold effective_mean mean_with_adjustments
    split_ifs <;> ring
  · intro q
    unfold mean_with_adjustments
    rw [if_neg fun h => absurd h.1 (by decide),
        if_neg fun h => absurd h.1 (by decide)]
    norm_num

/-- C3 counterexample: the pre-noise eNPS target mean for overall
engagement 5 in Engineering is 14.3, not 13.3 as claimed:
`(5-1)*2.5 + 0.3 + 4.0 = 14.3`. -/
theorem enps_target_mean_not_13_3 :
    enps_target_mean 5 "Engineering" = 143/10 ∧ (143/10 : ℚ) ≠ 133/10 := by
  constructor
  · norm_num [enps_target_mean, enps_dept_shift]
  · norm_num

/-- C3 (amended): the pre-noise eNPS target mean is
`(s-1)*2.5 + departmentShift + 4.0` with shift 0 outside the six named
departments; for s = 5 and Engineering it equals exactly 14.3, yet the
returned integer never leaves `[0, 10]` because of round-then-clamp. -/
theorem enps_target_mean_composition :
    (∀ (sc : ℚ) (d : String),
      enps_target_mean sc d = (sc - 1) * (25/10) + enps_dept_shift d + 4) ∧
    (∀ d : String, d ∈ DEPARTMENTS ∨ enps_dept_shift d = 0) ∧
    enps_target_mean 5 "Engineering" = 143/10 ∧
    (∀ (sc : ℚ) (d : String) (z : ℚ),
      0 ≤ generate_enps_from_engagement sc d z ∧
      generate_enps_from_engagement sc d z ≤ 10) := by
  refine ⟨fun sc d => rfl, ?_, by norm_num [enps_target_mean, enps_dept_shift], ?_⟩
  · intro d
    unfold enps_dept_shift
    split_ifs with h1 h2 h3 h4 h5 h6
    · exact Or.inl (h1 ▸ by decide)
    · exact Or.inl (h2 ▸ by decide)
    · exact Or.inl (h3 ▸ by decide)
    · exact Or.inl (h4 ▸ by decide)
    · exact Or.inl (h5 ▸ by decide)
    · exact Or.inl (h6 ▸ by decide)
    · exact Or.inr rfl
  · intro sc d z
    exact np_clip_bounds _ 0 10 (by norm_num)

/-- C5 counterexample: the minute offset is the Python int(...)
truncation, not rounding to the nearest minute: at respondent 8 with an
exponential variate of 1.9 minutes-pre-scaling (`z = 19/45`, so
`4.5 * z * 8 / 8 = 1.9`), the code yields 1 while rounding yields 2. -/
theorem timestamp_offset_truncates_not_rounds :
    timestamp_offset_minutes 8 (19/45) = 1 ∧
    timestamp_offset_claimed 8 (19/45) = 2 ∧ (1 : ℤ) ≠ 2 := by
  refine ⟨?_, ?_, by decide⟩
  · unfold timestamp_offset_minutes py_int
    norm_num
  · unfold timestamp_offset_claimed
    norm_num [round_eq]

/-- C5 (amended): the submission timestamp is the fixed start instant
plus a whole number of minutes obtained by truncating
`ExponentialSample(scale=4.5) * i / 8` down to a whole minute (floor,
the sample being nonnegative), drawn fresh per respondent. -/
theorem timestamp_is_start_plus_truncated_offset (i : ℕ) (z : ℚ) (hz : 0 ≤ z) :
    (timestamp_offset_minutes i z : ℚ) ≤ (45/10) * z * i / 8 ∧
    (45/10) * z * i / 8 < timestamp_offset_minutes i z + 1 ∧
    generate_timestamp i z = START_MINUTES + timestamp_offset_minutes i z := by
  have hx : (0:ℚ) ≤ (45/10) * z * i / 8 := by positivity
  have hfl : timestamp_offset_minutes i z = ⌊(45/10) * z * i / 8⌋ := by
    unfold timestamp_offset_minutes py_int
    rw [if_pos hx]
  refine ⟨?_, ?_, rfl⟩
  · rw [hfl]; exact Int.floor_le _
  · rw [hfl]; exact Int.lt_floor_add_one _

/-- Witness for the amended C5 theorem at `i = 8`, `z = 19/45`. -/
theorem timestamp_is_start_plus_truncated_offset_witness :
    (timestamp_offset_minutes 8 (19/45) : ℚ) ≤ (45/10 : ℚ) * (19/45) * ((8:ℕ) : ℚ) / 8 ∧
    (45/10 : ℚ) * (19/45) * ((8:ℕ) : ℚ) / 8 < (timestamp_offset_minutes 8 (19/45) : ℚ) + 1 ∧
    generate_timestamp 8 (19/45) = START_MINUTES + timestamp_offset_minutes 8 (19/45) :=
  timestamp_is_start_plus_truncated_offset 8 (19/45) (by norm_num)

/-- Adjacent strict comparison of a list of strings, on their character
lists (`String.<` is lexicographic order on `toList`). -/
def chainLtData : List String → Bool
  | a :: b :: l => decide (a.toList < b.toList) && chainLtData (b :: l)
  | _ => true

theorem chainLtData_pairwise :
    ∀ l : List String, chainLtData l = true → l.Pairwise (· < ·)
  | [] , _ => .nil
  | [_], _ => .cons (by simp) .nil
  | a :: b :: l, h => by
    rw [chainLtData, Bool.and_eq_true, decide_eq_true_eq] at h
    have hab : a < b := String.lt_iff_toList_lt.mpr h.1
    have ih := chainLtData_pairwise (b :: l) h.2
    obtain ⟨hb, -⟩ := List.pairwise_cons.mp ih
    refine List.Pairwise.cons (fun x hx => ?_) ih
    rcases List.mem_cons.mp hx with rfl | hx
    · exact hab
    · exact lt_trans hab (hb x hx)

/-- The respondent identifiers of the full run, in generation order. -/
theorem respondent_ids_pairwise_increasing :
    ((List.range' 1 N_RESPONSES).map respondent_id).Pairwise (· < ·) :=
  chainLtData_pairwise _ (by decide)

/-- C4: respondent identifiers are `R` followed by the four-digit
zero-padded index, and over indices `1..180` they are strictly
increasing (lexicographically) and pairwise distinct. -/
theorem respondent_ids_distinct_increasing (i j : ℕ)
    (h1 : 1 ≤ i) (h2 : i < j) (h3 : j ≤ N_RESPONSES) :
    respondent_id i = "R" ++ zfill 4 (Nat.repr i) ∧
    respondent_id i < respondent_id j ∧ respondent_id i ≠ respondent_id j := by
  have hlen : ((List.range' 1 N_RESPONSES).map respondent_id).length = N_RESPONSES := by
    simp
  have hi : i - 1 < ((List.range' 1 N_RESPONSES).map respondent_id).length := by
    rw [hlen]; omega
  have hj : j - 1 < ((List.range' 1 N_RESPONSES).map respondent_id).length := by
    rw [hlen]; omega
  have hij : (⟨i - 1, hi⟩ : Fin _) < (⟨j - 1, hj⟩ : Fin _) := by
    simp only [Fin.mk_lt_mk]; omega
  have := List.pairwise_iff_get.mp respondent_ids_pairwise_increasing
    ⟨i - 1, hi⟩ ⟨j - 1, hj⟩ hij
  simp only [List.get_eq_getElem, List.getElem_map, List.getElem_range'_1] at this
  have hi1 : 1 + (i - 1) = i := by omega
  have hj1 : 1 + (j - 1) = j := by omega
  rw [hi1, hj1] at this
  exact ⟨rfl, this, ne_of_lt this⟩

/-- Witness for C4 at `i = 1`, `j = 2`. -/
theorem respondent_ids_distinct_increasing_witness :
    respondent_id 1 = "R" ++ zfill 4 (Nat.repr 1) ∧
    respondent_id 1 < respondent_id 2 ∧ respondent_id 1 ≠ respondent_id 2 :=
  respondent_ids_distinct_increasing 1 2 (by decide) (by decide) (by decide)

theorem py_choice_mem (l : List String) (u : ℚ)
    (h0 : 0 ≤ u) (h1 : u < 1) (hl : l ≠ []) : py_choice l u ∈ l := by
  have hn : (0:ℚ) < l.length := by
    exact_mod_cast List.length_pos.mpr hl
  have hx0 : 0 ≤ u * l.length := mul_nonneg h0 hn.le
  have hxlt : u * l.length < l.length := by
    calc u * l.length < 1 * l.length := mul_lt_mul_of_pos_right h1 hn
    _ = l.length := one_mul _
  have hfl : ⌊u * (l.length:ℚ)⌋ < (l.length : ℤ) :=
    Int.floor_lt.mpr (by exact_mod_cast hxlt)
  have h0f : (0:ℤ) ≤ ⌊u * (l.length:ℚ)⌋ := Int.floor_nonneg.mpr hx0
  have hidx : (⌊u * (l.length:ℚ)⌋).toNat < l.length := by omega
  unfold py_choice py_int
  rw [if_pos hx0, List.getD_eq_getElem _ _ hidx]
  exact List.getElem_mem hidx

/-- C6: both comment fields are gated by independent draws against the
fixed probabilities (0.78 and 0.70 in `main`): with a gate probability
forced to 1.0 the field is a non-empty member of its template pool (the
0.55 workload override included), forced to 0.0 it is exactly the empty
string; at the source probabilities, the WhatsWorking field is
empty exactly when its gate draw fails. -/
theorem comment_gates (dept : String) (py : ℕ → ℚ) (pc : ℕ)
    (hpy : ∀ k, 0 ≤ py k ∧ py k < 1) :
    ((gen_comments 1 1 dept py pc).1 ∈ WORKING_WELL_TEMPLATES ∧
     (gen_comments 1 1 dept py pc).1 ≠ "") ∧
    ((gen_comments 1 1 dept py pc).2.1 ∈ IMPROVE_FIRST_TEMPLATES ∧
     (gen_comments 1 1 dept py pc).2.1 ≠ "") ∧
    (gen_comments 0 0 dept py pc).1 = "" ∧
    (gen_comments 0 0 dept py pc).2.1 = "" ∧
    ((gen_comments (78/100) (70/100) dept py pc).1 = "" ↔ ¬ py pc < 78/100) := by
  have hne : ("" : String) ∉ WORKING_WELL_TEMPLATES := by decide
  have hne2 : ("" : String) ∉ IMPROVE_FIRST_TEMPLATES := by decide
  have hmem : ∀ k, py_choice WORKING_WELL_TEMPLATES (py k) ∈ WORKING_WELL_TEMPLATES :=
    fun k => py_choice_mem _ _ (hpy k).1 (hpy k).2 (by decide)
  have hmem2 : ∀ k, py_choice IMPROVE_FIRST_TEMPLATES (py k) ∈ IMPROVE_FIRST_TEMPLATES :=
    fun k => py_choice_mem _ _ (hpy k).1 (hpy k).2 (by decide)
  have hlt1 : ∀ k, py k < 1 := fun k => (hpy k).2
  have hnlt0 : ∀ k, ¬ py k < 0 := fun k => not_lt.mpr (hpy k).1
  refine ⟨⟨?_, ?_⟩, ⟨?_, ?_⟩, ?_, ?_, ?_⟩
  · simp only [gen_comments, if_pos (hlt1 pc)]
    split_ifs <;> exact hmem _
  · simp only [gen_comments, if_pos (hlt1 pc)]
    split_ifs <;> exact fun h => hne (h ▸ hmem (pc+1))
  · simp only [gen_comments, if_pos (hlt1 pc), if_pos (hlt1 (pc+2))]
    split_ifs
    · exact (show "Reduce workload and improve staffing/planning." ∈
        IMPROVE_FIRST_TEMPLATES by decide)
    · exact hmem2 _
    · exact hmem2 _
  · simp only [gen_comments, if_pos (hlt1 pc), if_pos (hlt1 (pc+2))]
    split_ifs
    · exact fun h => absurd h
        (show ¬ ("Reduce workload and improve staffing/planning." = "") by decide)
    · exact fun h => hne2 (h ▸ hmem2 _)
    · exact fun h => hne2 (h ▸ hmem2 _)
  · simp only [gen_comments, if_neg (hnlt0 pc)]
    split_ifs <;> rfl
  · simp only [gen_comments, if_neg (hnlt0 pc), if_neg (hnlt0 (pc+1))]
  · by_cases hg : py pc < 78/100
    · simp only [gen_comments, if_pos hg, hg, not_true_eq_false, iff_false]
      split_ifs <;> exact fun h => hne (h ▸ hmem (pc+1))
    · simp only [gen_comments, if_neg hg]
      split_ifs <;> exact iff_of_true rfl hg

/-- Witness for C6: constant stream value 1/2, Engineering. -/
theorem comment_gates_witness :
    (((gen_comments 1 1 "Engineering" (fun _ => 1/2) 0).1 ∈ WORKING_WELL_TEMPLATES ∧
      (gen_comments 1 1 "Engineering" (fun _ => 1/2) 0).1 ≠ "") ∧
     ((gen_comments 1 1 "Engineering" (fun _ => 1/2) 0).2.1 ∈ IMPROVE_FIRST_TEMPLATES ∧
      (gen_comments 1 1 "Engineering" (fun _ => 1/2) 0).2.1 ≠ "") ∧
     (gen_comments 0 0 "Engineering" (fun _ => 1/2) 0).1 = "" ∧
     (gen_comments 0 0 "Engineering" (fun _ => 1/2) 0).2.1 = "" ∧
     ((gen_comments (78/100) (70/100) "Engineering" (fun _ => 1/2) 0).1 = "" ↔
       ¬ (fun _ : ℕ => (1:ℚ)/2) 0 < 78/100)) :=
  comment_gates "Engineering" (fun _ => 1/2) 0 (fun _ => by norm_num)

/-- C10: the improve-first field is always either empty or one of the
`IMPROVE_FIRST_TEMPLATES`; the workload override string forced for the
two high-workload departments is itself a member of that pool. -/
theorem improve_first_in_pool (dept : String) (py : ℕ → ℚ) (pc : ℕ)
    (hpy : ∀ k, 0 ≤ py k ∧ py k < 1) :
    ((gen_comments (78/100) (70/100) dept py pc).2.1 = "" ∨
     (gen_comments (78/100) (70/100) dept py pc).2.1 ∈ IMPROVE_FIRST_TEMPLATES) ∧
    "Reduce workload and improve staffing/planning." ∈ IMPROVE_FIRST_TEMPLATES := by
  have hmem2 : ∀ k, py_choice IMPROVE_FIRST_TEMPLATES (py k) ∈ IMPROVE_FIRST_TEMPLATES :=
    fun k => py_choice_mem _ _ (hpy k).1 (hpy k).2 (by decide)
  refine ⟨?_, by decide⟩
  simp only [gen_comments]
  split_ifs <;>
    first
      | exact Or.inl rfl
      | exact Or.inr (hmem2 _)
      | exact Or.inr (show "Reduce workload and improve staffing/planning." ∈
          IMPROVE_FIRST_TEMPLATES by decide)

/-- Witness for C10: constant stream value 1/2, Customer Support. -/
theorem improve_first_in_pool_witness :
    (((gen_comments (78/100) (70/100) "Customer Support" (fun _ => 1/2) 0).2.1 = "" ∨
      (gen_comments (78/100) (70/100) "Customer Support" (fun _ => 1/2) 0).2.1 ∈
        IMPROVE_FIRST_TEMPLATES) ∧
     "Reduce workload and improve staffing/planning." ∈ IMPROVE_FIRST_TEMPLATES) :=
  improve_first_in_pool "Customer Support" (fun _ => 1/2) 0 (fun _ => by norm_num)

theorem mk_row_map_fst (rid time dept location tenure manager : String)
    (enps : ℤ) (answers : String → ℤ) (c1 c2 : String) :
    (mk_row rid time dept location tenure manager enps answers c1 c2).map
      Prod.fst = ROW_HEADER := rfl

theorem gen_respondent_ok_row (DI : List String) (DW : List ℚ) (s : Streams)
    (i pc nc : ℕ) (row : List (String × String)) (pc' nc' : ℕ)
    (h : gen_respondent DI DW s i pc nc = .ok (row, pc', nc')) :
    row.map Prod.fst = ROW_HEADER ∧
    (∃ v1, ("Open_WhatsWorking", v1) ∈ row) ∧
    (∃ v2, ("Open_ImproveFirst", v2) ∈ row) ∧
    (∀ q ∈ QUESTION_CODES, ∃ k : ℤ, 1 ≤ k ∧ k ≤ 5 ∧
      decode_likert (LIKERT_TEXT k) = some k ∧ (q, LIKERT_TEXT k) ∈ row) := by
  unfold gen_respondent at h
  split at h
  · exact absurd h (by simp)
  rename_i dept hdept
  split at h
  · exact absurd h (by simp)
  rename_i location hloc
  split at h
  · exact absurd h (by simp)
  rename_i tenure hten
  split at h
  · exact absurd h (by simp)
  rename_i manager hman
  injection h with h
  injection h with hrow h
  subst hrow
  refine ⟨rfl, ⟨(gen_comments (78/100) (70/100) dept s.py (pc+4)).1, ?_⟩,
    ⟨(gen_comments (78/100) (70/100) dept s.py (pc+4)).2.1, ?_⟩, ?_⟩
  · simp only [mk_row]
    exact List.mem_append_right _ (List.mem_cons_self _ _)
  · simp only [mk_row]
    exact List.mem_append_right _ (List.mem_cons_of_mem _ (List.mem_cons_self _ _))
  intro q hq
  refine ⟨likert_from_mean (effective_mean dept tenure manager q)
    (s.npr (nc + QUESTION_CODES.indexOf q)), ?_, ?_, ?_, ?_⟩
  · exact (np_clip_bounds _ 1 5 (by norm_num)).1
  · exact (np_clip_bounds _ 1 5 (by norm_num)).2
  · exact decode_LIKERT_TEXT _ (np_clip_bounds _ 1 5 (by norm_num)).1
      (np_clip_bounds _ 1 5 (by norm_num)).2
  · simp only [mk_row]
    refine List.mem_append_left _ (List.mem_append_right _ ?_)
    exact List.mem_map_of_mem _ hq

/-- C7: every generated row carries exactly the same fields in the same
order — the seven metadata columns, the 12 question codes (holding
Likert text labels that decode to integers, not raw integers), then the
two comment columns, both always present (an empty comment is an
explicit empty string field, never an absent one). -/
theorem dataset_rows_uniform_schema (s : Streams) (n i pc nc : ℕ)
    (rows : List (List (String × String)))
    (h : gen_rows DEPARTMENTS DEPT_WEIGHT_VALUES s n i pc nc = .ok rows) :
    ∀ row ∈ rows, row.map Prod.fst = ROW_HEADER ∧
      (∃ v1, ("Open_WhatsWorking", v1) ∈ row) ∧
      (∃ v2, ("Open_ImproveFirst", v2) ∈ row) ∧
      (∀ q ∈ QUESTION_CODES, ∃ k : ℤ, 1 ≤ k ∧ k ≤ 5 ∧
        decode_likert (LIKERT_TEXT k) = some k ∧ (q, LIKERT_TEXT k) ∈ row) := by
  induction n generalizing i pc nc rows with
  | zero =>
    injection h with h
    subst h
    intro row hrow
    exact absurd hrow (List.not_mem_nil row)
  | succ n ih =>
    rw [gen_rows] at h
    split at h
    · exact absurd h (by simp)
    rename_i row1 pc1 nc1 hresp
    split at h
    · exact absurd h (by simp)
    rename_i rest hrest
    injection h with h
    subst h
    intro row hrow
    rcases List.mem_cons.mp hrow with rfl | hrow
    · exact gen_respondent_ok_row _ _ _ _ _ _ _ _ _ hresp
    · exact ih _ _ _ _ hrest row hrow

/-- A concrete pair of streams (uniform draws all 1/2, Gaussian and
exponential variates all 0) used to witness theorems about full runs. -/
def sample_streams : Streams := ⟨fun _ => 1/2, fun _ => 0⟩

/-- The row the generator produces from `sample_streams` for respondent 1. -/
def sample_row : List (String × String) :=
  [("RespondentID", "R0001"), ("SubmissionTime", "540"),
   ("Department", "Customer Support"), ("Location", "Paris"),
   ("Tenure", "1-3y"), ("Manager", "No"), ("eNPS_0_10", "8"),
   ("Q01_Strategy", "Neutral"), ("Q02_Leadership_Comms", "Neutral"),
   ("Q03_Manager_Support", "Agree"), ("Q04_Feedback", "Neutral"),
   ("Q05_Workload", "Disagree"), ("Q06_Tools", "Agree"),
   ("Q07_Recognition", "Neutral"), ("Q08_Collaboration", "Agree"),
   ("Q09_PsychSafety", "Agree"), ("Q10_CareerPath", "Neutral"),
   ("Q11_Stay12Months", "Neutral"), ("Q12_OverallEngagement", "Neutral"),
   ("Open_WhatsWorking", "Manager is approachable and supportive."),
   ("Open_ImproveFirst", "Reduce workload and improve staffing/planning.")]

set_option maxHeartbeats 4000000 in
theorem gen_rows_sample :
    gen_rows DEPARTMENTS DEPT_WEIGHT_VALUES sample_streams 1 1 0 0 =
      Except.ok [sample_row] := by
  norm_num +decide [gen_rows, gen_respondent, weighted_choice, pick_weighted,
    gen_comments, py_choice, py_int, mk_row, likert_from_mean, np_rint, np_clip,
    effective_mean, mean_with_adjustments, BASE_MEAN_BY_Q, DEPT_ADJ,
    generate_enps_from_engagement, enps_target_mean, enps_dept_shift,
    generate_timestamp, timestamp_offset_minutes, START_MINUTES, respondent_id,
    zfill, LIKERT_TEXT, QUESTION_CODES, sample_streams, sample_row, DEPARTMENTS,
    DEPT_WEIGHT_VALUES, LOCATIONS, LOCATION_WEIGHTS, TENURE_BANDS, TENURE_WEIGHTS,
    List.indexOf, List.findIdx, List.findIdx.go]
  norm_num [Int.fract]
  norm_num [WORKING_WELL_TEMPLATES, List.length]
  rfl

/-- Witness for C7: the schema facts hold of the concrete sample row. -/
theorem dataset_rows_uniform_schema_witness :
    sample_row.map Prod.fst = ROW_HEADER :=
  (dataset_rows_uniform_schema sample_streams 1 1 0 0 [sample_row]
    gen_rows_sample sample_row (List.mem_singleton.mpr rfl)).1

/-- C8: the generated dataset is a deterministic function of the two
seeded random streams, consumed in a fixed order: two runs over
pointwise-equal streams (as produced by equal seeds) yield identical
row sequences, field for field. -/
theorem dataset_deterministic_in_streams (s t : Streams)
    (hp : ∀ k, s.py k = t.py k) (hn : ∀ k, s.npr k = t.npr k)
    (DI : List String) (DW : List ℚ) (n i pc nc : ℕ) :
    gen_rows DI DW s n i pc nc = gen_rows DI DW t n i pc nc := by
  induction n generalizing i pc nc with
  | zero => rfl
  | succ n ih =>
    have hresp : gen_respondent DI DW s i pc nc = gen_respondent DI DW t i pc nc := by
      simp only [gen_respondent, gen_comments, generate_timestamp, hp, hn]
    rw [gen_rows, gen_rows, hresp]
    cases hr : gen_respondent DI DW t i pc nc with
    | error e => rfl
    | ok x =>
      obtain ⟨row, pc', nc'⟩ := x
      simp only [ih]

/-- Witness for C8: the two identical constant-stream runs coincide. -/
theorem dataset_deterministic_in_streams_witness :
    gen_rows DEPARTMENTS DEPT_WEIGHT_VALUES ⟨fun _ => 1/2, fun _ => 0⟩ 2 1 0 0 =
    gen_rows DEPARTMENTS DEPT_WEIGHT_VALUES ⟨fun _ => 1/2, fun _ => 0⟩ 2 1 0 0 :=
  dataset_deterministic_in_streams ⟨fun _ => 1/2, fun _ => 0⟩ ⟨fun _ => 1/2, fun _ => 0⟩
    (fun _ => rfl) (fun _ => rfl) DEPARTMENTS DEPT_WEIGHT_VALUES 2 1 0 0

/-- C9: the weighted categorical sampler raises a `ValueError` (it never
falls back to uniform choice) when the weight list and candidate list
differ in length or all weights are zero, and with such a malformed
configuration the run aborts with that error before producing any row. -/
theorem weighted_choice_malformed_raises (items : List String)
    (weights : List ℚ) (u : ℚ)
    (hbad : weights.length ≠ items.length ∨ ∀ w ∈ weights, w = 0) :
    (∃ e, weighted_choice items weights u = Except.error e) ∧
    (∀ (s : Streams) (i pc nc n : ℕ), n ≠ 0 →
      ∃ e, gen_rows items weights s n i pc nc = Except.error e) := by
  have herr : ∀ v : ℚ, ∃ e, weighted_choice items weights v = Except.error e := by
    intro v
    unfold weighted_choice
    rcases hbad with hlen | hzero
    · exact ⟨_, if_pos hlen⟩
    · by_cases hlen : weights.length ≠ items.length
      · exact ⟨_, if_pos hlen⟩
      · have hs : weights.sum ≤ 0 := le_of_eq (List.sum_eq_zero hzero)
        exact ⟨_, by rw [if_neg hlen, if_pos hs]⟩
  refine ⟨herr u, ?_⟩
  intro s i pc nc n hn
  obtain ⟨m, rfl⟩ := Nat.exists_eq_succ_of_ne_zero hn
  obtain ⟨e, he⟩ := herr (s.py pc)
  refine ⟨e, ?_⟩
  rw [gen_rows]
  unfold gen_respondent
  rw [he]

/-- Witness for C9: a length mismatch and an all-zero weight list. -/
theorem weighted_choice_malformed_raises_witness :
    ((∃ e, weighted_choice ["a"] [] 0 = Except.error e) ∧
     (∀ (s : Streams) (i pc nc n : ℕ), n ≠ 0 →
       ∃ e, gen_rows ["a"] [] s n i pc nc = Except.error e)) ∧
    (∃ e, weighted_choice ["a", "b"] [0, 0] 0 = Except.error e) :=
  ⟨weighted_choice_malformed_raises ["a"] [] 0 (Or.inl (by decide)),
   (weighted_choice_malformed_raises ["a", "b"] [0, 0] 0
     (Or.inr (by decide))).1⟩

end FakeSurvey
